import Mathlib

/-!
Shallow embedding of the FerrideCore 2D game-engine simulation core
(src/src/game): the geometry primitive BoundingBox, the
VelocityController, the Camera entity, and the Game orchestrator
(scene lifecycle, per-frame timer tick, external-event routing).

Numeric conventions: f32 values are idealized as exact arithmetic.
The purely linear BoundingBox math is parametric over a linear ordered
field (instantiated at ℚ for concrete evaluation); Camera and
VelocityController use ℝ because they take square roots
(magnitude / normalize).  Byte payloads of uniform buffers are
modelled as lists of reals (the camera uniform is six f32 matrix
entries).  Debug-format quoting of names is abstracted away.
-/

namespace FerrideCore

/-- 2D vector (twod::Vector / threed::Vector with z = 0). -/
structure Vec2 (α : Type) where
  x : α
  y : α
deriving DecidableEq, Repr

namespace Vec2

variable {α : Type} [LinearOrderedField α]

def add (a b : Vec2 α) : Vec2 α := ⟨a.x + b.x, a.y + b.y⟩

def sub (a b : Vec2 α) : Vec2 α := ⟨a.x - b.x, a.y - b.y⟩

def smul (a : Vec2 α) (c : α) : Vec2 α := ⟨a.x * c, a.y * c⟩

/-- twod::Vector::magnitude_squared. -/
def magnitude_squared (a : Vec2 α) : α := a.x * a.x + a.y * a.y

end Vec2

/-- twod::Vector::magnitude (used on f32; modelled on ℝ). -/
noncomputable def Vec2.magnitude (a : Vec2 ℝ) : ℝ :=
  Real.sqrt a.magnitude_squared

/-- twod::Vector::normalize: v / magnitude(v). -/
noncomputable def Vec2.normalize (a : Vec2 ℝ) : Vec2 ℝ :=
  ⟨a.x / a.magnitude, a.y / a.magnitude⟩

/-- PhysicalSize / crate::Size: a width/height pair. -/
structure SizeT (α : Type) where
  width : α
  height : α
deriving DecidableEq, Repr

/-- src/src/game/bounding_box.rs: box given by middle point and size,
with both sides inclusive. -/
structure BoundingBox (α : Type) where
  anchor : Vec2 α
  size : SizeT α
deriving DecidableEq, Repr

namespace BoundingBox

variable {α : Type} [LinearOrderedField α]

/-- BoundingBox::contains_point. -/
def contains_point (self : BoundingBox α) (point : Vec2 α) : Prop :=
  let offset := point.sub self.anchor
  let width := self.size.width / 2
  let height := self.size.height / 2
  offset.x ≥ -width ∧ offset.x ≤ width ∧ offset.y ≥ -height ∧ offset.y ≤ height

instance (self : BoundingBox α) (point : Vec2 α) :
    Decidable (contains_point self point) := by
  unfold contains_point; infer_instance

/-- BoundingBox::contains_box. -/
def contains_box (self other : BoundingBox α) : Prop :=
  let offset : Vec2 α := ⟨other.size.width / 2, other.size.height / 2⟩
  let top_left := other.anchor.sub offset
  let bottom_right := other.anchor.add offset
  contains_point self top_left ∧ contains_point self bottom_right

instance (self other : BoundingBox α) : Decidable (contains_box self other) := by
  unfold contains_box; infer_instance

/-- BoundingBox::intersects (strict AABB overlap). -/
def intersects (self other : BoundingBox α) : Prop :=
  let s_width := self.size.width / 2
  let s_height := self.size.height / 2
  let o_width := other.size.width / 2
  let o_height := other.size.height / 2
  self.anchor.x - s_width < other.anchor.x + o_width ∧
  self.anchor.x + s_width > other.anchor.x - o_width ∧
  self.anchor.y - s_height < other.anchor.y + o_height ∧
  self.anchor.y + s_height > other.anchor.y - o_height

/-- BoundingBox::clamp_box_inside: nearest anchor for other to lie in
self; None if already contained; self.anchor on an axis where other is
not smaller than self. -/
def clamp_box_inside (self other : BoundingBox α) : Option (Vec2 α) :=
  if contains_box self other then none
  else
    let x :=
      if other.size.width < self.size.width then
        let size_difference := (other.size.width - self.size.width) / 2
        let left_distance := self.anchor.x - other.anchor.x
        other.anchor.x +
          (if |left_distance| ≤ -size_difference then 0
           else if left_distance > 0 then left_distance + size_difference
           else left_distance - size_difference)
      else self.anchor.x
    let y :=
      if other.size.height < self.size.height then
        let size_difference := (other.size.height - self.size.height) / 2
        let top_distance := self.anchor.y - other.anchor.y
        other.anchor.y +
          (if |top_distance| ≤ -size_difference then 0
           else if top_distance > 0 then top_distance + size_difference
           else top_distance - size_difference)
      else self.anchor.y
    some ⟨x, y⟩

end BoundingBox

/-- src/src/game/velocity_controller.rs: direction keys. -/
inductive Direction
  | Up
  | Right
  | Down
  | Left
deriving DecidableEq, Repr

/-- 8 directional VelocityController. -/
structure VelocityController where
  speed : ℝ
  up : Bool
  right : Bool
  down : Bool
  left : Bool

namespace VelocityController

/-- VelocityController::new. -/
def new (speed : ℝ) : VelocityController := ⟨speed, false, false, false, false⟩

/-- VelocityController::stop_movement. -/
def stop_movement (self : VelocityController) : VelocityController :=
  { self with up := false, down := false, left := false, right := false }

/-- VelocityController::set_direction. -/
def set_direction (self : VelocityController) (direction : Direction)
    (value : Bool) : VelocityController :=
  match direction with
  | .Up => { self with up := value }
  | .Right => { self with right := value }
  | .Down => { self with down := value }
  | .Left => { self with left := value }

/-- VelocityController::get_velocity: sum of unit contributions,
normalized when the squared magnitude reaches 1, then scaled by speed. -/
noncomputable def get_velocity (self : VelocityController) : Vec2 ℝ :=
  let v0 : Vec2 ℝ := ⟨0, 0⟩
  let v1 := if self.up then { v0 with y := v0.y + 1 } else v0
  let v2 := if self.right then { v1 with x := v1.x + 1 } else v1
  let v3 := if self.down then { v2 with y := v2.y - 1 } else v2
  let v4 := if self.left then { v3 with x := v3.x - 1 } else v3
  let magnitude := v4.magnitude_squared
  let v5 := if magnitude ≥ 1 then v4.smul (1 / Real.sqrt magnitude) else v4
  v5.smul self.speed

end VelocityController

/-! ## Camera (src/src/game/camera.rs) -/

/-- const CAMERA_DECELERATION_THRESHOLD: f32 = 1e-4. -/
noncomputable def CAMERA_DECELERATION_THRESHOLD : ℝ := 1 / 10000

/-- winit keyboard key codes relevant to the camera. -/
inductive KeyCode
  | KeyW
  | KeyA
  | KeyS
  | KeyD
  | otherKey
deriving DecidableEq, Repr

/-- winit::event::ElementState. -/
inductive ElementState
  | Pressed
  | Released
deriving DecidableEq, Repr

/-- winit::event::KeyEvent (the fields the camera reads). -/
structure KeyEvent where
  state : ElementState
  physical_key : KeyCode
deriving DecidableEq, Repr

/-- CameraDescriptor. -/
structure CameraDescriptor where
  name : String
  view_size : SizeT ℝ
  speed : ℝ
  acceleration_steps : ℕ
  target_entity : String
  bound_entity : Option String
  max_offset_position : ℝ

/-- Camera state. -/
structure Camera where
  name : String
  uniform_name : String
  position : Vec2 ℝ
  offset_position : Vec2 ℝ
  max_offset : ℝ
  decceleration_factor : ℝ
  velocity : VelocityController
  view_size : SizeT ℝ
  target_entity : String
  bound_entity : Option String

/-- What the camera observes of a sibling entity: Entity::name,
Entity::position and Entity::bounding_box. -/
structure EntityView where
  name : String
  position : Vec2 ℝ
  bounding_box : BoundingBox ℝ

/-- The one event the camera emits: E::update_uniform_buffer. -/
inductive CameraEvent
  | update_uniform_buffer (name : String) (bytes : List ℝ)

def CameraEvent.is_update_uniform_buffer : CameraEvent → Bool
  | .update_uniform_buffer _ _ => true

namespace Camera

/-- Camera::new from a CameraDescriptor. -/
noncomputable def new (descriptor : CameraDescriptor) : Camera :=
  { uniform_name := descriptor.name
    name := descriptor.name
    position := ⟨0, 0⟩
    offset_position := ⟨0, 0⟩
    max_offset := descriptor.max_offset_position
    decceleration_factor := 1 - 1 / (descriptor.acceleration_steps : ℝ)
    velocity := VelocityController.new
      (descriptor.speed / (descriptor.acceleration_steps : ℝ))
    view_size := descriptor.view_size
    bound_entity := descriptor.bound_entity
    target_entity := descriptor.target_entity }

/-- Camera::reset_offset. -/
def reset_offset (self : Camera) : Camera :=
  { self with velocity := self.velocity.stop_movement
              offset_position := ⟨0, 0⟩ }

/-- CameraUniform::from(&Camera) flattened by Camera::as_bytes: the six
f32 entries of the column-major view matrix. -/
noncomputable def as_bytes (self : Camera) : List ℝ :=
  let x := self.position.x + self.offset_position.x
  let y := self.position.y + self.offset_position.y
  [2 / self.view_size.width, 0,
   0, 2 / self.view_size.height,
   -2 * x / self.view_size.width, -2 * y / self.view_size.height]

/-- The offset_position after the per-axis deceleration decay and the
velocity add of Camera::update, before the radial clamp. -/
noncomputable def preclamp_offset (self : Camera) : Vec2 ℝ :=
  let velocity := self.velocity.get_velocity
  let ox := if |velocity.x| ≤ CAMERA_DECELERATION_THRESHOLD then
      self.offset_position.x * self.decceleration_factor
    else self.offset_position.x
  let oy := if |velocity.y| ≤ CAMERA_DECELERATION_THRESHOLD then
      self.offset_position.y * self.decceleration_factor
    else self.offset_position.y
  ⟨ox + velocity.x, oy + velocity.y⟩

/-- The offset_position after the radial clamp of Camera::update. -/
noncomputable def clamped_offset (self : Camera) : Vec2 ℝ :=
  let o := self.preclamp_offset
  if o.magnitude_squared ≥ self.max_offset ^ 2 then
    o.normalize.smul self.max_offset
  else o

/-- <Camera as Entity>::update: target lookup, offset decay + velocity,
radial clamp, recenter on target, optional clamp inside the bound
entity's box, then emit the uniform-buffer update. -/
noncomputable def update (self : Camera) (entities : List EntityView) :
    Camera × List CameraEvent :=
  match entities.find? (fun e => e.name = self.target_entity) with
  | none => (self, [])
  | some target_entity =>
    let o := self.clamped_offset
    let pos := target_entity.position
    match self.bound_entity with
    | none =>
      let c := { self with offset_position := o, position := pos }
      (c, [CameraEvent.update_uniform_buffer c.uniform_name c.as_bytes])
    | some bound_name =>
      match entities.find? (fun e => e.name = bound_name) with
      | none => ({ self with offset_position := o, position := pos }, [])
      | some bound_entity =>
        let pos' :=
          match bound_entity.bounding_box.clamp_box_inside
              ⟨pos.add o, self.view_size⟩ with
          | none => pos
          | some new_offset => new_offset.sub o
        let c := { self with offset_position := o, position := pos' }
        (c, [CameraEvent.update_uniform_buffer c.uniform_name c.as_bytes])

/-- <Camera as Entity>::render: empty body — entity state and both
frame buffers are untouched. -/
def render (self : Camera) (vertices : List ℕ) (indices : List ℕ)
    (_sprite_sheet : List (Option ℕ)) : Camera × List ℕ × List ℕ :=
  (self, vertices, indices)

/-- <Camera as Entity>::sprite_sheets. -/
def sprite_sheets (_self : Camera) : List String := []

/-- <Camera as Entity>::handle_key_input: W/A/S/D toggle the four
directions; everything else is ignored; no events are returned. -/
def handle_key_input (self : Camera) (input : KeyEvent) : Camera :=
  if input.state = ElementState.Released then
    match input.physical_key with
    | .KeyW => { self with velocity := self.velocity.set_direction .Up false }
    | .KeyA => { self with velocity := self.velocity.set_direction .Left false }
    | .KeyD => { self with velocity := self.velocity.set_direction .Right false }
    | .KeyS => { self with velocity := self.velocity.set_direction .Down false }
    | .otherKey => self
  else if input.state = ElementState.Pressed then
    match input.physical_key with
    | .KeyW => { self with velocity := self.velocity.set_direction .Up true }
    | .KeyA => { self with velocity := self.velocity.set_direction .Left true }
    | .KeyD => { self with velocity := self.velocity.set_direction .Right true }
    | .KeyS => { self with velocity := self.velocity.set_direction .Down true }
    | .otherKey => self
  else self

end Camera

/-! ## Orchestrator data model (src/src/game/mod.rs, scene.rs, game_event.rs)

Type parameters: η is the dynamic entity type (Box<dyn Entity>), ν the
host-defined per-entity event type (E::EntityEvent), σ the host State.
Window descriptors, render-scene descriptors, sprite sheets and shader
stages are opaque to the orchestrator and modelled as ℕ handles. -/

/-- graphics_provider::Visibility. -/
inductive Visibility
  | Visible
  | Hidden
deriving DecidableEq, Repr

/-- ShaderDescriptor (graphics_provider/shader_descriptor.rs). -/
structure ShaderDescriptor where
  file : String
  vertex_shader : String
  fragment_shader : String
  uniforms : List String
deriving DecidableEq, Repr

/-- src/src/game/scene.rs: Scene. -/
structure Scene (η : Type) where
  name : String
  shader_descriptor : ShaderDescriptor
  render_scene : String
  target_window : String
  entities : List η
  z_index : ℤ

/-- The classification/payload interface of the ExternalEvent trait
(game_event.rs): one routed host event, with one Option field per
is_*/consume_* query (an event may match several). -/
structure ExtEvent (η ν : Type) where
  request_new_scenes : Option (List (Scene η))
  add_entities : Option (List η × String)
  set_visibility_scene : Option (String × Visibility)
  suspend_scene : Option String
  activate_suspended_scene : Option String
  delete_scene : Option String
  update_uniform_buffer : Option (String × List ℝ)
  delete_entity : Option (String × String)
  render_scene : Option String
  end_game : Bool
  entity_event : Option (String × ν)

/-- The event matching no query at all. -/
def ExtEvent.null (η ν : Type) : ExtEvent η ν :=
  ⟨none, none, none, none, none, none, none, none, none, false, none⟩

/-- Outgoing effects of the orchestrator: GameEvent variants sent to the
window manager plus the direct GraphicsProvider calls. -/
inductive OutEvent (η ν : Type)
  | RequestNewWindow (descriptor : ℕ) (name : String)
  | RequestNewRenderScene (window : ℕ) (render_scene : String)
      (shader : ShaderDescriptor) (descriptor : ℕ)
      (uniform_buffers : List (String × List ℝ × ℕ))
  | RequestSetVisibilityRenderScene (render_scene : String)
      (visibility : Visibility)
  | RenderUpdate (render_scene : String) (vertices : List ℕ)
      (indices : List ℕ)
  | External (event : ExtEvent η ν)
  | EndGame
  | UpdateUniformBuffer (name : String) (bytes : List ℝ)
  | RemoveRenderScene (render_scene : String)

/-- The dynamic-dispatch surface of the Entity trait used by the
orchestrator, plus the host State::handle_event. -/
structure EntityOps (η ν σ : Type) where
  name : η → String
  z : η → ℚ
  update : η → List η → String → ℚ → η × List (ExtEvent η ν)
  sprite_sheets : η → List String
  render : η → List ℕ × List ℕ → List (Option ℕ) → η × List ℕ × List ℕ
  delete_child_entity : η → String → η
  handle_event : η → ν → η × List (ExtEvent η ν)
  position : η → Vec2 ℝ
  bounding_box : η → BoundingBox ℝ
  state_handle_event : σ → ExtEvent η ν → σ × List (ExtEvent η ν)

/-- wgpu::ShaderStages::VERTEX bit. -/
def VERTEX_STAGE : ℕ := 1

/-- RessourceDescriptor (ressource_descriptor.rs); the fields the
modelled handlers read. -/
structure RessourceDescriptor where
  windows : List (String × ℕ)
  uniforms : List (String × List ℝ × ℕ)
  default_render_scene : Option CameraDescriptor × ℕ
  render_scenes : List (List String × Option CameraDescriptor × ℕ)

namespace RessourceDescriptor

/-- RessourceDescriptor::get_window. -/
def get_window (self : RessourceDescriptor) (name : String) : Option ℕ :=
  (self.windows.find? (fun w => decide (w.1 = name))).map Prod.snd

/-- RessourceDescriptor::get_uniform. -/
def get_uniform (self : RessourceDescriptor) (name : String) :
    Option (String × List ℝ × ℕ) :=
  self.uniforms.find? (fun u => decide (u.1 = name))

/-- RessourceDescriptor::get_render_scene (total: falls back to the
default descriptor). -/
def get_render_scene (self : RessourceDescriptor) (name : String) :
    Option CameraDescriptor × ℕ :=
  match self.render_scenes.find? (fun r => r.1.contains name) with
  | some r => (r.2.1, r.2.2)
  | none => self.default_render_scene

end RessourceDescriptor

/-- Game orchestrator state (the fields the modelled handlers touch). -/
structure Game (η ν σ : Type) where
  ressources : RessourceDescriptor
  active_scenes : List (Scene η)
  pending_scenes : List (Scene η)
  suspended_scenes : List (Scene η)
  window_ids : List (String × ℕ)
  sprite_sheets : List (String × ℕ)
  cameras : List (String × Camera × String)
  state : σ

/-! ## List helpers mirroring the Rust iteration patterns -/

/-- Stable insertion used by sort_by. -/
def insert_sorted {α : Type} (le : α → α → Bool) (a : α) : List α → List α
  | [] => [a]
  | b :: bs => if le a b then a :: b :: bs else b :: insert_sorted le a bs

/-- Stable sort modelling Vec::sort_by / sort_by_key (Rust's slice sort
is stable). -/
def sort_by {α : Type} (le : α → α → Bool) : List α → List α
  | [] => []
  | x :: xs => insert_sorted le x (sort_by le xs)

/-- iter_mut().find + in-place mutation: apply f to the first element
matching p; none if no element matches. -/
def modify_first {α : Type} (p : α → Bool) (f : α → α) : List α → Option (List α)
  | [] => none
  | x :: xs =>
    if p x then some (f x :: xs)
    else (modify_first p f xs).map (fun ys => x :: ys)

/-- position + Vec::remove: the first element matching p and the list
without it. -/
def extract_first {α : Type} (p : α → Bool) : List α → Option (α × List α)
  | [] => none
  | x :: xs =>
    if p x then some (x, xs)
    else (extract_first p xs).map (fun r => (r.1, x :: r.2))

section Orchestrator

variable {η ν σ : Type}

/-! ## Timer tick (GameEvent::Timer branch of Game::user_event) -/

/-- Per-scene tick accumulator: the (partially updated) entity vector
and the frame's event/vertex/index output. -/
structure TickState (η ν : Type) where
  entities : List η
  outs : List (OutEvent η ν)
  vertices : List ℕ
  indices : List ℕ

/-- The sibling list built by split_at_mut(i) + split_first_mut:
everything left of index i followed by everything right of it. -/
def siblings_at (es : List η) (i : ℕ) : List η :=
  es.take i ++ es.drop (i + 1)

/-- Sprite-sheet resolution against the loaded table: a missing sheet
yields none. -/
def resolve_sprite_sheets (table : List (String × ℕ)) (names : List String) :
    List (Option ℕ) :=
  names.map (fun n => (table.find? (fun p => decide (p.1 = n))).map Prod.snd)

/-- One iteration of the per-entity loop of the Timer branch: update
entity i against its siblings, forward its events, resolve its sprite
sheets, render it. Only index i is written back. -/
def tick_step (ops : EntityOps η ν σ) (table : List (String × ℕ))
    (scene_name : String) (delta_t : ℚ) (st : TickState η ν) (i : ℕ) :
    TickState η ν :=
  match st.entities.drop i with
  | [] => st
  | e :: _ =>
    let u := ops.update e (siblings_at st.entities i) scene_name delta_t
    let sheets := resolve_sprite_sheets table (ops.sprite_sheets u.1)
    let r := ops.render u.1 (st.vertices, st.indices) sheets
    { entities := st.entities.set i r.1
      outs := st.outs ++ u.2.map OutEvent.External
      vertices := r.2.1
      indices := r.2.2 }

/-- The full per-entity loop over indices 0..len. -/
def scene_tick_entities (ops : EntityOps η ν σ) (table : List (String × ℕ))
    (scene_name : String) (delta_t : ℚ) (es : List η) : TickState η ν :=
  (List.range es.length).foldl (tick_step ops table scene_name delta_t)
    ⟨es, [], [], []⟩

/-- What the camera sees of an entity. -/
def entity_view (ops : EntityOps η ν σ) (e : η) : EntityView :=
  ⟨ops.name e, ops.position e, ops.bounding_box e⟩

/-- cameras.iter_mut().find by scene name: advance that camera against
the post-update entity list and push its uniform bytes. -/
noncomputable def update_scene_camera (views : List EntityView)
    (scene_name : String) :
    List (String × Camera × String) →
    List (String × Camera × String) × List (OutEvent η ν)
  | [] => ([], [])
  | c :: rest =>
    if c.1 = scene_name then
      let cam2 := (c.2.1.update views).1
      ((c.1, cam2, c.2.2) :: rest,
       [OutEvent.UpdateUniformBuffer c.2.2 cam2.as_bytes])
    else
      let r := update_scene_camera views scene_name rest
      (c :: r.1, r.2)

/-- One scene of the Timer branch: stable-sort entities by z ascending,
run the per-entity update/render loop, advance the scene's camera, then
emit the scene's render-buffer update. -/
noncomputable def scene_tick (ops : EntityOps η ν σ)
    (table : List (String × ℕ)) (delta_t : ℚ)
    (acc : List (Scene η) × List (String × Camera × String) × List (OutEvent η ν))
    (scene : Scene η) :
    List (Scene η) × List (String × Camera × String) × List (OutEvent η ν) :=
  let sorted := sort_by (fun a b => decide (ops.z a ≤ ops.z b)) scene.entities
  let st := scene_tick_entities ops table scene.name delta_t sorted
  let views := st.entities.map (entity_view ops)
  let cams := update_scene_camera views scene.name acc.2.1
  (acc.1 ++ [{ scene with entities := st.entities }],
   cams.1,
   acc.2.2 ++ st.outs ++ cams.2 ++
     [OutEvent.RenderUpdate scene.render_scene st.vertices st.indices])

/-- GameEvent::Timer: process every active scene and then every
suspended scene (active_scenes.iter_mut().chain(suspended_scenes)). -/
noncomputable def timer_tick (ops : EntityOps η ν σ) (delta_t : ℚ)
    (g : Game η ν σ) : Game η ν σ × List (OutEvent η ν) :=
  let a := g.active_scenes.foldl (scene_tick ops g.sprite_sheets delta_t)
    ([], g.cameras, [])
  let s := g.suspended_scenes.foldl (scene_tick ops g.sprite_sheets delta_t)
    ([], a.2.1, [])
  ({ g with active_scenes := a.1, suspended_scenes := s.1, cameras := s.2.1 },
   a.2.2 ++ s.2.2)

/-! ## Scene activation (Game::activate_scenes) -/

/-- Accumulator of the scan over pending scenes. -/
structure ActivationScan where
  needed_windows : List String
  scenes_to_discard : List String
  scenes_to_request : List (ℕ × String × String × ShaderDescriptor)
  warns : List String

/-- The duplicate test of the activation loop: some active scene
already has this pending scene's name. -/
def scene_name_dup (g : Game η ν σ) (scene : Scene η) : Bool :=
  g.active_scenes.any (fun s => decide (s.name = scene.name))

/-- One iteration of the loop over pending scenes: a pending scene
whose name is already active is discarded with a warning; otherwise it
is queued for a render-scene request (window known) or its window is
queued. -/
def activation_scan_step (g : Game η ν σ) (acc : ActivationScan)
    (scene : Scene η) : ActivationScan :=
  if scene_name_dup g scene then
    { acc with
      scenes_to_discard := acc.scenes_to_discard ++ [scene.name]
      warns := acc.warns ++
        ["Scene " ++ scene.name ++ " already exists. Discarding it"] }
  else
    match g.window_ids.find? (fun w => decide (w.1 = scene.target_window)) with
    | some w =>
      { acc with scenes_to_request := acc.scenes_to_request ++
          [(w.2, scene.render_scene, scene.name, scene.shader_descriptor)] }
    | none =>
      if acc.needed_windows.contains scene.target_window then acc
      else { acc with needed_windows :=
        acc.needed_windows ++ [scene.target_window] }

/-- The full scan over pending scenes. -/
def activation_scan (g : Game η ν σ) : ActivationScan :=
  g.pending_scenes.foldl (activation_scan_step g) ⟨[], [], [], []⟩

/-- The uniform-buffer name derived for a render scene's camera. -/
def camera_uniform_name (render_scene : String) : String :=
  render_scene ++ " camera"

/-- Resolve a shader's uniform names; a missing one is the
"Did not specify UniformBuffer" expect (panic). -/
def lookup_uniforms (r : RessourceDescriptor) :
    List String → Except String (List (String × List ℝ × ℕ))
  | [] => .ok []
  | n :: ns =>
    match r.get_uniform n with
    | none => .error ("Did not specify UniformBuffer " ++ n ++
        " in RessourceDescriptor")
    | some u => (lookup_uniforms r ns).map (fun us => u :: us)

/-- Game::request_render_scene: look up descriptor and uniforms, build
and register the camera when one is configured, emit the request. -/
noncomputable def request_render_scene (window_id : ℕ)
    (render_scene scene : String) (shader : ShaderDescriptor)
    (g : Game η ν σ) : Except String (Game η ν σ × List (OutEvent η ν)) :=
  let rs := g.ressources.get_render_scene render_scene
  match lookup_uniforms g.ressources shader.uniforms with
  | .error e => .error e
  | .ok uniform_buffers =>
    match rs.1 with
    | some camera_descriptor =>
      let camera := Camera.new camera_descriptor
      let uniform_name := camera_uniform_name render_scene
      .ok ({ g with cameras := g.cameras ++ [(scene, camera, uniform_name)] },
        [OutEvent.RequestNewRenderScene window_id render_scene shader rs.2
          (uniform_buffers ++ [(uniform_name, camera.as_bytes, VERTEX_STAGE)])])
    | none =>
      .ok (g, [OutEvent.RequestNewRenderScene window_id render_scene shader
        rs.2 uniform_buffers])

/-- The loop issuing request_render_scene for each queued scene. -/
noncomputable def process_requests :
    List (ℕ × String × String × ShaderDescriptor) → Game η ν σ →
    Except String (Game η ν σ × List (OutEvent η ν))
  | [], g => .ok (g, [])
  | q :: rest, g =>
    match request_render_scene q.1 q.2.1 q.2.2.1 q.2.2.2 g with
    | .error e => .error e
    | .ok r =>
      match process_requests rest r.1 with
      | .error e => .error e
      | .ok r2 => .ok (r2.1, r.2 ++ r2.2)

/-- The loop requesting missing windows; an unresourced window is the
"No ressources provided" expect (panic). -/
def process_needed_windows (r : RessourceDescriptor) :
    List String → Except String (List (OutEvent η ν))
  | [] => .ok []
  | n :: ns =>
    match r.get_window n with
    | none => .error ("No ressources provided for " ++ n)
    | some d =>
      (process_needed_windows r ns).map
        (fun outs => OutEvent.RequestNewWindow d n :: outs)

/-- Game::activate_scenes: scan pending scenes, request render scenes
and windows, then drop the discarded pending scenes. -/
noncomputable def activate_scenes (g : Game η ν σ) :
    Except String (Game η ν σ × List (OutEvent η ν) × List String) :=
  let scan := activation_scan g
  match process_requests scan.scenes_to_request g with
  | .error e => .error e
  | .ok r =>
    match process_needed_windows r.1.ressources scan.needed_windows with
    | .error e => .error e
    | .ok window_outs =>
      .ok ({ r.1 with pending_scenes := (r.1.pending_scenes.filter
              (fun s => !(scan.scenes_to_discard.contains s.name))) },
        r.2 ++ window_outs, scan.warns)

/-! ## External-event routing (GameEvent::External branch) -/

/-- The for-loop notifying every remaining entity via
delete_child_entity. -/
def notify_delete_child (ops : EntityOps η ν σ) (name : String) :
    List η → List η
  | [] => []
  | e :: es => ops.delete_child_entity e name :: notify_delete_child ops name es

/-- The delete-entity branch body on the located scene: retain by name,
then broadcast delete_child_entity to every remaining entity. -/
def delete_entity_from_scene (ops : EntityOps η ν σ) (name : String)
    (scene : Scene η) : Scene η :=
  { scene with entities := (notify_delete_child ops name
      (scene.entities.filter (fun e => decide (ops.name e ≠ name)))) }

/-- One iteration of Scene::simple_render: render entity i (no update,
no sibling list). -/
def render_step (ops : EntityOps η ν σ) (table : List (String × ℕ))
    (st : TickState η ν) (i : ℕ) : TickState η ν :=
  match st.entities.drop i with
  | [] => st
  | e :: _ =>
    let sheets := resolve_sprite_sheets table (ops.sprite_sheets e)
    let r := ops.render e (st.vertices, st.indices) sheets
    { st with entities := st.entities.set i r.1
              vertices := r.2.1
              indices := r.2.2 }

/-- Scene::simple_render: sort by z, render every entity, emit one
render-buffer update. -/
def simple_render (ops : EntityOps η ν σ) (table : List (String × ℕ))
    (scene : Scene η) : Scene η × OutEvent η ν :=
  let sorted := sort_by (fun a b => decide (ops.z a ≤ ops.z b)) scene.entities
  let st := (List.range sorted.length).foldl (render_step ops table)
    ⟨sorted, [], [], []⟩
  ({ scene with entities := st.entities },
   OutEvent.RenderUpdate scene.render_scene st.vertices st.indices)

/-- Find the named scene among the active scenes and simple_render it. -/
def render_first (ops : EntityOps η ν σ) (table : List (String × ℕ))
    (scene_name : String) :
    List (Scene η) → Option (List (Scene η) × OutEvent η ν)
  | [] => none
  | sc :: rest =>
    if sc.name = scene_name then
      let r := simple_render ops table sc
      some (r.1 :: rest, r.2)
    else
      (render_first ops table scene_name rest).map
        (fun r => (sc :: r.1, r.2))

/-- Locate the target entity in one scene's entity list and deliver the
event via handle_event. -/
def handle_entity_in (ops : EntityOps η ν σ) (target : String) (ev : ν) :
    List η → Option (List η × List (ExtEvent η ν))
  | [] => none
  | e :: es =>
    if ops.name e = target then
      let r := ops.handle_event e ev
      some (r.1 :: es, r.2)
    else
      (handle_entity_in ops target ev es).map (fun r => (e :: r.1, r.2))

/-- Locate the named entity across the active scenes only and deliver
via handle_event. -/
def deliver_entity_event (ops : EntityOps η ν σ) (target : String) (ev : ν) :
    List (Scene η) → Option (List (Scene η) × List (ExtEvent η ν))
  | [] => none
  | sc :: rest =>
    match handle_entity_in ops target ev sc.entities with
    | some r => some ({ sc with entities := r.1 } :: rest, r.2)
    | none =>
      (deliver_entity_event ops target ev rest).map
        (fun r => (sc :: r.1, r.2))

/-- GameEvent::External branch of Game::user_event: route one host
event through the fixed priority chain. A thrown String is a panic of
the Rust code (expect/unwrap); the String list collects warn! logs. -/
noncomputable def handle_external (ops : EntityOps η ν σ) (g : Game η ν σ)
    (event : ExtEvent η ν) :
    Except String (Game η ν σ × List (OutEvent η ν) × List String) :=
  match event.request_new_scenes with
  | some scenes =>
    activate_scenes { g with pending_scenes := g.pending_scenes ++ scenes }
  | none =>
  match event.add_entities with
  | some add =>
    (match modify_first (fun s => decide (s.name = add.2))
        (fun s => { s with entities := s.entities ++ add.1 })
        g.active_scenes with
     | some active2 => .ok ({ g with active_scenes := active2 }, [], [])
     | none =>
       match modify_first (fun s => decide (s.name = add.2))
           (fun s => { s with entities := s.entities ++ add.1 })
           g.suspended_scenes with
       | some suspended2 =>
         .ok ({ g with suspended_scenes := suspended2 }, [], [])
       | none => .error ("Found no active nor suspended scene " ++ add.2))
  | none =>
  let step_visibility : Except String (List (OutEvent η ν)) :=
    match event.set_visibility_scene with
    | none => .ok []
    | some sv =>
      match g.active_scenes.find? (fun s => decide (s.name = sv.1)) with
      | some s =>
        .ok [OutEvent.RequestSetVisibilityRenderScene s.render_scene sv.2]
      | none =>
        match g.suspended_scenes.find? (fun s => decide (s.name = sv.1)) with
        | some s =>
          .ok [OutEvent.RequestSetVisibilityRenderScene s.render_scene sv.2]
        | none => .error ("Found no active nor suspended scene " ++ sv.1)
  match step_visibility with
  | .error e => .error e
  | .ok outs_visibility =>
  let step_suspend : Game η ν σ × List String :=
    match event.suspend_scene with
    | none => (g, [])
    | some n =>
      match extract_first (fun s => decide (s.name = n)) g.active_scenes with
      | some r =>
        ({ g with active_scenes := r.2
                  suspended_scenes := g.suspended_scenes ++ [r.1]
                  cameras := g.cameras.map (fun c =>
                    if c.1 = n then (c.1, c.2.1.reset_offset, c.2.2) else c) },
         [])
      | none => (g, ["Tried to suspend Scene " ++ n ++ ", but it is not active"])
  let g4 := step_suspend.1
  let step_activate : Game η ν σ × List String :=
    match event.activate_suspended_scene with
    | none => (g4, [])
    | some n =>
      match extract_first (fun s => decide (s.name = n)) g4.suspended_scenes with
      | some r =>
        ({ g4 with suspended_scenes := r.2
                   active_scenes := sort_by
                     (fun a b => decide (a.z_index ≤ b.z_index))
                     (g4.active_scenes ++ [r.1]) },
         [])
      | none =>
        (g4, ["Tried to activate suspended Scene " ++ n ++
          ", but it is not suspended"])
  let g5 := step_activate.1
  let step_delete_scene : Game η ν σ × List (OutEvent η ν) × List String :=
    match event.delete_scene with
    | none => (g5, [], [])
    | some n =>
      let found :
          Game η ν σ × List (OutEvent η ν) × List String :=
        match extract_first (fun s => decide (s.name = n)) g5.active_scenes with
        | some r =>
          ({ g5 with active_scenes := r.2 },
           [OutEvent.RemoveRenderScene r.1.render_scene], [])
        | none =>
          match extract_first (fun s => decide (s.name = n))
              g5.suspended_scenes with
          | some r =>
            ({ g5 with suspended_scenes := r.2 },
             [OutEvent.RemoveRenderScene r.1.render_scene], [])
          | none =>
            (g5, [],
             ["Tried to delete Scene " ++ n ++
              ", but its neither active nor suspended"])
      ({ found.1 with cameras := (found.1.cameras.filter
          (fun c => decide (c.1 ≠ n))) },
       found.2.1, found.2.2)
  let g6 := step_delete_scene.1
  let outs_uniform : List (OutEvent η ν) :=
    match event.update_uniform_buffer with
    | none => []
    | some u => [OutEvent.UpdateUniformBuffer u.1 u.2]
  let step_delete_entity : Except String (Game η ν σ) :=
    match event.delete_entity with
    | none => .ok g6
    | some de =>
      match modify_first (fun s => decide (s.name = de.2))
          (delete_entity_from_scene ops de.1) g6.active_scenes with
      | some active2 => .ok { g6 with active_scenes := active2 }
      | none =>
        match modify_first (fun s => decide (s.name = de.2))
            (delete_entity_from_scene ops de.1) g6.suspended_scenes with
        | some suspended2 => .ok { g6 with suspended_scenes := suspended2 }
        | none => .error ("Found no active nor suspended scene " ++ de.2)
  match step_delete_entity with
  | .error e => .error e
  | .ok g7 =>
  let step_render : Game η ν σ × List (OutEvent η ν) × List String :=
    match event.render_scene with
    | none => (g7, [], [])
    | some n =>
      match render_first ops g7.sprite_sheets n g7.active_scenes with
      | some r => ({ g7 with active_scenes := r.1 }, [r.2], [])
      | none =>
        (g7, [], ["Tried to render Scene " ++ n ++ ", but it is not active"])
  let g9 := step_render.1
  let outs_so_far := outs_visibility ++ step_delete_scene.2.1 ++
    outs_uniform ++ step_render.2.1
  let warns_so_far := step_suspend.2 ++ step_activate.2 ++
    step_delete_scene.2.2 ++ step_render.2.2
  if event.end_game then
    .ok (g9, outs_so_far ++ [OutEvent.EndGame], warns_so_far)
  else
    let step_entity : Game η ν σ × List (ExtEvent η ν) × List String :=
      match event.entity_event with
      | some te =>
        match deliver_entity_event ops te.1 te.2 g9.active_scenes with
        | some r => ({ g9 with active_scenes := r.1 }, r.2, [])
        | none =>
          (g9, [],
           ["Tried to send event to entity " ++ te.1 ++
            ", but it does not exist in an active scene"])
      | none =>
        let r := ops.state_handle_event g9.state event
        ({ g9 with state := r.1 }, r.2, [])
    .ok (step_entity.1,
      outs_so_far ++ step_entity.2.1.map OutEvent.External,
      warns_so_far ++ step_entity.2.2)

/-! ## Event constructors for single-query events -/

/-- An event matching only is_request_suspend_scene. -/
def mk_suspend (n : String) : ExtEvent η ν :=
  { ExtEvent.null η ν with suspend_scene := some n }

/-- An event matching only is_request_activate_suspended_scene. -/
def mk_activate (n : String) : ExtEvent η ν :=
  { ExtEvent.null η ν with activate_suspended_scene := some n }

/-- An event matching only is_request_delete_scene. -/
def mk_delete_scene (n : String) : ExtEvent η ν :=
  { ExtEvent.null η ν with delete_scene := some n }

/-- An event matching only is_add_entities / consume_add_entities_request. -/
def mk_add_entities (es : List η) (scene : String) : ExtEvent η ν :=
  { ExtEvent.null η ν with add_entities := some (es, scene) }

/-- An event matching only is_request_set_visibility_scene. -/
def mk_set_visibility (scene : String) (v : Visibility) : ExtEvent η ν :=
  { ExtEvent.null η ν with set_visibility_scene := some (scene, v) }

/-- An event matching only is_delete_entity. -/
def mk_delete_entity (entity scene : String) : ExtEvent η ν :=
  { ExtEvent.null η ν with delete_entity := some (entity, scene) }

/-- An event matching only is_entity_event / consume_entity_event. -/
def mk_entity_event (target : String) (ev : ν) : ExtEvent η ν :=
  { ExtEvent.null η ν with entity_event := some (target, ev) }

end Orchestrator

/-! ## Concrete fixtures (used to evaluate the model on closed inputs) -/

/-- Entity implementation over ℕ: update increments the state (so an
invoked update is observable), entity 2 is named "child", deletion
notifications add 100. -/
noncomputable def natOps : EntityOps ℕ Unit Unit where
  name e := if e = 2 then "child" else "entity"
  z _ := 0
  update e _ _ _ := (e + 1, [])
  sprite_sheets _ := []
  render e b _ := (e, b.1, b.2)
  delete_child_entity e _ := e + 100
  handle_event e _ := (e, [])
  position _ := ⟨0, 0⟩
  bounding_box _ := ⟨⟨0, 0⟩, ⟨0, 0⟩⟩
  state_handle_event s _ := (s, [])

/-- A shader descriptor with no uniforms. -/
def shader0 : ShaderDescriptor := ⟨"shader.wgsl", "vs_main", "fs_main", []⟩

/-- Ressources: window "w" known, render scene "rsS" has no camera. -/
noncomputable def res0 : RessourceDescriptor :=
  ⟨[("w", 0)], [], (none, 0), [(["rsS"], none, 0)]⟩

/-- A scene named "S" holding one entity (state 0). -/
noncomputable def sceneS : Scene ℕ := ⟨"S", shader0, "rsS", "w", [0], 0⟩

/-- A game whose only scene is sceneS, suspended. -/
noncomputable def suspended_game : Game ℕ Unit Unit :=
  ⟨res0, [], [], [sceneS], [("w", 0)], [], [], ()⟩

/-- A game with a suspended scene "S" and a pending scene also named
"S" (duplicate across lifecycle buckets). -/
noncomputable def dup_pending_game : Game ℕ Unit Unit :=
  ⟨res0, [], [⟨"S", shader0, "rsS", "w", [], 0⟩], [⟨"S", shader0, "rsS", "w", [], 0⟩],
   [("w", 0)], [], [], ()⟩

/-- A game with no scenes at all. -/
noncomputable def empty_game : Game ℕ Unit Unit :=
  ⟨res0, [], [], [], [("w", 0)], [], [], ()⟩

/-- A game with an active scene "S" and a pending scene also named "S"
(duplicate against the active bucket). -/
noncomputable def dup_active_game : Game ℕ Unit Unit :=
  ⟨res0, [⟨"S", shader0, "rsS", "w", [], 0⟩],
   [⟨"S", shader0, "rsS", "w", [], 0⟩], [], [("w", 0)], [], [], ()⟩

/-- An active scene "S" with entities 1, 2 ("child"), 3. -/
noncomputable def family_game : Game ℕ Unit Unit :=
  ⟨res0, [⟨"S", shader0, "rsS", "w", [1, 2, 3], 0⟩], [], [], [("w", 0)], [], [], ()⟩

/-- A tick in flight over three entities. -/
def tick_fixture : TickState ℕ Unit := ⟨[10, 20, 30], [], [], []⟩

/-- A stationary camera: no keys pressed, offset at the origin. -/
noncomputable def still_camera (max_offset : ℝ) : Camera :=
  { name := "cam"
    uniform_name := "cam"
    position := ⟨0, 0⟩
    offset_position := ⟨0, 0⟩
    max_offset := max_offset
    decceleration_factor := 1 / 2
    velocity := VelocityController.new 1
    view_size := ⟨2, 2⟩
    target_entity := "t"
    bound_entity := none }

/-- A single target entity named "t" at the origin. -/
noncomputable def target_views : List EntityView :=
  [⟨"t", ⟨0, 0⟩, ⟨⟨0, 0⟩, ⟨1, 1⟩⟩⟩]

/-- A game without a scene named "X" but with a camera registered for
scene "X" and one for scene "Y". -/
noncomputable def stale_camera_game : Game ℕ Unit Unit :=
  ⟨res0, [], [], [], [("w", 0)], [],
   [("X", still_camera 1, "uX"), ("Y", still_camera 1, "uY")], ()⟩

/-- VelocityController predicate: exactly two adjacent direction flags
set (Up+Right, Right+Down, Down+Left or Left+Up). -/
def adjacent_pair (c : VelocityController) : Prop :=
  (c.up = true ∧ c.right = true ∧ c.down = false ∧ c.left = false) ∨
  (c.right = true ∧ c.down = true ∧ c.up = false ∧ c.left = false) ∨
  (c.down = true ∧ c.left = true ∧ c.up = false ∧ c.right = false) ∨
  (c.left = true ∧ c.up = true ∧ c.right = false ∧ c.down = false)

/-- VelocityController predicate: exactly one direction flag set. -/
def exactly_one (c : VelocityController) : Prop :=
  (c.up = true ∧ c.right = false ∧ c.down = false ∧ c.left = false) ∨
  (c.right = true ∧ c.up = false ∧ c.down = false ∧ c.left = false) ∨
  (c.down = true ∧ c.up = false ∧ c.right = false ∧ c.left = false) ∨
  (c.left = true ∧ c.up = false ∧ c.right = false ∧ c.down = false)

/-! ## Theorems -/

section Theorems

variable {η ν σ : Type}

/-- C1: in every iteration of the Timer branch's per-entity loop, the
sibling list passed to entity i's update is exactly the current entity
vector with index i erased — all other entities, in order, never the
entity itself — and the step writes back only index i. -/
theorem claim_C1 (ops : EntityOps η ν σ) (table : List (String × ℕ))
    (scene_name : String) (delta_t : ℚ) (st : TickState η ν) (i : ℕ)
    (h : i < st.entities.length) :
    siblings_at st.entities i = st.entities.eraseIdx i ∧
    (siblings_at st.entities i).length = st.entities.length - 1 ∧
    (∀ j, j < i → (siblings_at st.entities i)[j]? = st.entities[j]?) ∧
    (∀ j, i ≤ j → (siblings_at st.entities i)[j]? = st.entities[j + 1]?) ∧
    (tick_step ops table scene_name delta_t st i).entities.length
      = st.entities.length ∧
    ∀ j, j ≠ i →
      (tick_step ops table scene_name delta_t st i).entities[j]?
        = st.entities[j]? := by
  have herase : siblings_at st.entities i = st.entities.eraseIdx i :=
    (List.eraseIdx_eq_take_drop_succ _ _).symm
  have hne : ∀ e rest, st.entities.drop i = e :: rest →
      (tick_step ops table scene_name delta_t st i).entities
        = st.entities.set i
          (ops.render
            (ops.update e (siblings_at st.entities i) scene_name delta_t).1
            (st.vertices, st.indices)
            (resolve_sprite_sheets table (ops.sprite_sheets
              (ops.update e (siblings_at st.entities i) scene_name
                delta_t).1))).1 := by
    intro e rest hd
    simp [tick_step, hd]
  refine ⟨herase, ?_, ?_, ?_, ?_, ?_⟩
  · rw [herase, List.length_eraseIdx]; simp [h]
  · intro j hj; rw [herase]; exact List.getElem?_eraseIdx_of_lt _ _ _ hj
  · intro j hj; rw [herase]; exact List.getElem?_eraseIdx_of_ge _ _ _ hj
  · cases hd : st.entities.drop i with
    | nil =>
      have hlen := congrArg List.length hd
      simp [List.length_drop] at hlen
      omega
    | cons e rest =>
      rw [hne e rest hd, List.length_set]
  · intro j hj
    cases hd : st.entities.drop i with
    | nil =>
      have hlen := congrArg List.length hd
      simp [List.length_drop] at hlen
      omega
    | cons e rest =>
      rw [hne e rest hd, List.getElem?_set_ne (Ne.symm hj)]

/-- C1 witness: with entities 10, 20, 30 and i = 1, the sibling list is
[10, 30] and the step leaves indices 0 and 2 unchanged. -/
theorem claim_C1_witness :
    1 < tick_fixture.entities.length ∧
    siblings_at tick_fixture.entities 1 = [10, 30] ∧
    (tick_step natOps [] "S" 1 tick_fixture 1).entities[0]? = some 10 ∧
    (tick_step natOps [] "S" 1 tick_fixture 1).entities[2]? = some 30 := by
  have h := claim_C1 natOps [] "S" 1 tick_fixture 1 (by decide)
  refine ⟨by decide, ?_, ?_, ?_⟩
  · rw [h.1]; rfl
  · exact (h.2.2.2.2.2 0 (by decide)).trans (by rfl)
  · exact (h.2.2.2.2.2 2 (by decide)).trans (by rfl)

/-- C2 (code behaviour at the failing input): a timer tick on a game
whose only scene is suspended still invokes Entity::update on that
scene's entity (its state advances 0 → 1) while also rendering it — the
suspended scene is not frozen, contradicting the documentation of
is_request_suspend_scene (game_event.rs) and the spec. -/
theorem claim_C2_code_behavior :
    (timer_tick natOps 1 suspended_game).1.suspended_scenes.map Scene.entities
      = [[1]] ∧
    (timer_tick natOps 1 suspended_game).2
      = [OutEvent.RenderUpdate "rsS" [] []] :=
  ⟨rfl, rfl⟩

/-- C9: processing a delete-scene event always leaves the camera list
filtered of every camera registered for that scene name, whether or not
a scene of that name existed in the active or suspended bucket. -/
theorem claim_C9 (ops : EntityOps η ν σ) (g : Game η ν σ) (n : String)
    (g' : Game η ν σ) (outs : List (OutEvent η ν)) (warns : List String)
    (h : handle_external ops g (mk_delete_scene n) = .ok (g', outs, warns)) :
    g'.cameras = g.cameras.filter (fun c => decide (c.1 ≠ n)) := by
  unfold handle_external at h
  simp only [mk_delete_scene, ExtEvent.null] at h
  cases hA : extract_first (fun s => decide (s.name = n)) g.active_scenes with
  | some r =>
    simp only [hA] at h
    cases h
    rfl
  | none =>
    cases hS : extract_first (fun s => decide (s.name = n))
        g.suspended_scenes with
    | some r =>
      simp only [hA, hS] at h
      cases h
      rfl
    | none =>
      simp only [hA, hS] at h
      cases h
      rfl

/-- C9 witness: a game with no scene named "X" but cameras for "X" and
"Y"; the delete-scene event for "X" still removes the "X" camera. -/
theorem claim_C9_witness :
    handle_external natOps stale_camera_game (mk_delete_scene "X")
      = .ok ({ stale_camera_game with cameras := [("Y", still_camera 1, "uY")] },
          [], ["Tried to delete Scene X, but its neither active nor suspended"]) ∧
    ({ stale_camera_game with
        cameras := [("Y", still_camera 1, "uY")] } : Game ℕ Unit Unit).cameras
      = stale_camera_game.cameras.filter (fun c => decide (c.1 ≠ "X")) :=
  ⟨rfl,
   claim_C9 natOps stale_camera_game "X" _ _ _ rfl⟩

/-- modify_first characterized: a some result replaces exactly the
first element satisfying p by its f-image. -/
theorem modify_first_some {α : Type} (p : α → Bool) (f : α → α) :
    ∀ (l l2 : List α), modify_first p f l = some l2 →
      ∃ i x, l[i]? = some x ∧ p x = true ∧ l2 = l.set i (f x) := by
  intro l
  induction l with
  | nil => intro l2 h; simp [modify_first] at h
  | cons a xs ih =>
    intro l2 h
    by_cases hp : p a
    · simp only [modify_first, hp, if_pos] at h
      cases h
      exact ⟨0, a, by simp, hp, rfl⟩
    · simp only [modify_first, hp, Bool.false_eq_true, if_false,
        Option.map_eq_some'] at h
      obtain ⟨ys, hys, rfl⟩ := h
      obtain ⟨i, x, hx, hpx, rfl⟩ := ih ys hys
      exact ⟨i + 1, x, by simpa using hx, hpx, rfl⟩

/-- The delete_child_entity for-loop is a map. -/
theorem notify_delete_child_eq_map (ops : EntityOps η ν σ) (name : String) :
    ∀ l : List η, notify_delete_child ops name l
      = l.map (fun e => ops.delete_child_entity e name) := by
  intro l
  induction l with
  | nil => rfl
  | cons e es ih => simp [notify_delete_child, ih]

/-- C7: a delete-entity event for entity N in scene S rewrites the
first scene named S (searched in active then suspended scenes) so that
its entity list becomes: all entities not named N, each notified via
delete_child_entity N — every entity named N removed, the notification
broadcast to every survivor; every other scene is untouched. -/
theorem claim_C7 (ops : EntityOps η ν σ) (g : Game η ν σ) (N S : String)
    (g' : Game η ν σ) (outs : List (OutEvent η ν)) (warns : List String)
    (h : handle_external ops g (mk_delete_entity N S) = .ok (g', outs, warns)) :
    (∃ i sc, g.active_scenes[i]? = some sc ∧ sc.name = S ∧
      g'.active_scenes = g.active_scenes.set i
        { sc with entities := ((sc.entities.filter
            (fun e => decide (ops.name e ≠ N))).map
            (fun e => ops.delete_child_entity e N)) } ∧
      g'.suspended_scenes = g.suspended_scenes) ∨
    (∃ i sc, g.suspended_scenes[i]? = some sc ∧ sc.name = S ∧
      g'.suspended_scenes = g.suspended_scenes.set i
        { sc with entities := ((sc.entities.filter
            (fun e => decide (ops.name e ≠ N))).map
            (fun e => ops.delete_child_entity e N)) } ∧
      g'.active_scenes = g.active_scenes) := by
  unfold handle_external at h
  simp only [mk_delete_entity, ExtEvent.null] at h
  cases hA : modify_first (fun s => decide (s.name = S))
      (delete_entity_from_scene ops N) g.active_scenes with
  | some active2 =>
    simp only [hA] at h
    cases h
    obtain ⟨i, sc, hi, hpi, rfl⟩ := modify_first_some _ _ _ _ hA
    refine Or.inl ⟨i, sc, hi, of_decide_eq_true hpi, ?_, rfl⟩
    show (g.active_scenes.set i (delete_entity_from_scene ops N sc)) = _
    rw [delete_entity_from_scene, notify_delete_child_eq_map]
  | none =>
    cases hS : modify_first (fun s => decide (s.name = S))
        (delete_entity_from_scene ops N) g.suspended_scenes with
    | some suspended2 =>
      simp only [hA, hS] at h
      cases h
      obtain ⟨i, sc, hi, hpi, rfl⟩ := modify_first_some _ _ _ _ hS
      refine Or.inr ⟨i, sc, hi, of_decide_eq_true hpi, ?_, rfl⟩
      show (g.suspended_scenes.set i (delete_entity_from_scene ops N sc)) = _
      rw [delete_entity_from_scene, notify_delete_child_eq_map]
    | none =>
      simp only [hA, hS] at h
      exact Except.noConfusion h

/-- C7 witness: deleting "child" (entity 2) from scene "S" with
entities 1, 2, 3 leaves entities 101, 103: entity 2 removed, survivors
1 and 3 notified via delete_child_entity (+100). -/
theorem claim_C7_witness :
    handle_external natOps family_game (mk_delete_entity "child" "S")
      = .ok ({ family_game with
          active_scenes := [⟨"S", shader0, "rsS", "w", [101, 103], 0⟩] },
          [], []) ∧
    ((∃ i sc, family_game.active_scenes[i]? = some sc ∧ sc.name = "S" ∧
      ({ family_game with
          active_scenes := [⟨"S", shader0, "rsS", "w", [101, 103], 0⟩] }
        : Game ℕ Unit Unit).active_scenes = family_game.active_scenes.set i
        { sc with entities := ((sc.entities.filter
            (fun e => decide (natOps.name e ≠ "child"))).map
            (fun e => natOps.delete_child_entity e "child")) } ∧
      ({ family_game with
          active_scenes := [⟨"S", shader0, "rsS", "w", [101, 103], 0⟩] }
        : Game ℕ Unit Unit).suspended_scenes
        = family_game.suspended_scenes) ∨
     (∃ i sc, family_game.suspended_scenes[i]? = some sc ∧ sc.name = "S" ∧
      ({ family_game with
          active_scenes := [⟨"S", shader0, "rsS", "w", [101, 103], 0⟩] }
        : Game ℕ Unit Unit).suspended_scenes
        = family_game.suspended_scenes.set i
        { sc with entities := ((sc.entities.filter
            (fun e => decide (natOps.name e ≠ "child"))).map
            (fun e => natOps.delete_child_entity e "child")) } ∧
      ({ family_game with
          active_scenes := [⟨"S", shader0, "rsS", "w", [101, 103], 0⟩] }
        : Game ℕ Unit Unit).active_scenes = family_game.active_scenes)) :=
  ⟨rfl, claim_C7 natOps family_game "child" "S" _ _ _ rfl⟩

/-- The activation scan accumulates one discarded name and one warning
per pending scene whose name is already active. -/
theorem activation_scan_foldl (g : Game η ν σ) :
    ∀ (l : List (Scene η)) (acc : ActivationScan),
      (l.foldl (activation_scan_step g) acc).scenes_to_discard
        = acc.scenes_to_discard ++ (l.filter (scene_name_dup g)).map Scene.name ∧
      (l.foldl (activation_scan_step g) acc).warns
        = acc.warns ++ (l.filter (scene_name_dup g)).map
            (fun s => "Scene " ++ s.name ++ " already exists. Discarding it") := by
  intro l
  induction l with
  | nil => intro acc; simp
  | cons a xs ih =>
    intro acc
    by_cases hd : scene_name_dup g a
    · have := ih (activation_scan_step g acc a)
      simp only [List.foldl_cons]
      rw [(this).1, (this).2]
      simp [activation_scan_step, hd]
    · have := ih (activation_scan_step g acc a)
      simp only [List.foldl_cons]
      rw [(this).1, (this).2]
      have hstep :
          (activation_scan_step g acc a).scenes_to_discard
            = acc.scenes_to_discard ∧
          (activation_scan_step g acc a).warns = acc.warns := by
        unfold activation_scan_step
        rw [if_neg hd]
        cases g.window_ids.find? (fun w => decide (w.1 = a.target_window)) with
        | some w => exact ⟨rfl, rfl⟩
        | none =>
          by_cases hc : acc.needed_windows.contains a.target_window = true
          · rw [if_pos hc]; exact ⟨rfl, rfl⟩
          · rw [if_neg hc]; exact ⟨rfl, rfl⟩
      rw [hstep.1, hstep.2]
      simp [hd]

/-- request_render_scene only registers a camera: every scene list is
untouched. -/
theorem request_render_scene_preserves (w : ℕ) (rs sc : String)
    (sh : ShaderDescriptor) (g : Game η ν σ)
    (r : Game η ν σ × List (OutEvent η ν))
    (h : request_render_scene w rs sc sh g = .ok r) :
    r.1.active_scenes = g.active_scenes ∧
    r.1.pending_scenes = g.pending_scenes ∧
    r.1.suspended_scenes = g.suspended_scenes := by
  unfold request_render_scene at h
  cases hu : lookup_uniforms g.ressources sh.uniforms with
  | error e => simp [hu] at h
  | ok us =>
    simp only [hu] at h
    cases hc : (g.ressources.get_render_scene rs).1 with
    | some cd =>
      simp only [hc] at h
      cases h
      exact ⟨rfl, rfl, rfl⟩
    | none =>
      simp only [hc] at h
      cases h
      exact ⟨rfl, rfl, rfl⟩

/-- The request loop only registers cameras: every scene list is
untouched. -/
theorem process_requests_preserves :
    ∀ (reqs : List (ℕ × String × String × ShaderDescriptor))
      (g : Game η ν σ) (r : Game η ν σ × List (OutEvent η ν)),
      process_requests reqs g = .ok r →
        r.1.active_scenes = g.active_scenes ∧
        r.1.pending_scenes = g.pending_scenes ∧
        r.1.suspended_scenes = g.suspended_scenes := by
  intro reqs
  induction reqs with
  | nil =>
    intro g r h
    cases h
    exact ⟨rfl, rfl, rfl⟩
  | cons q rest ih =>
    intro g r h
    unfold process_requests at h
    cases hq : request_render_scene q.1 q.2.1 q.2.2.1 q.2.2.2 g with
    | error e => simp [hq] at h
    | ok r1 =>
      simp only [hq] at h
      cases hr : process_requests rest r1.1 with
      | error e => simp [hr] at h
      | ok r2 =>
        simp only [hr] at h
        cases h
        have h1 := request_render_scene_preserves q.1 q.2.1 q.2.2.1 q.2.2.2 g r1 hq
        have h2 := ih r1.1 r2 hr
        exact ⟨by rw [h2.1, h1.1], by rw [h2.2.1, h1.2.1],
          by rw [h2.2.2, h1.2.2]⟩

/-- C5 (amended): activation enforces name uniqueness against the
active bucket only — it removes from pending exactly the scenes whose
name is already active, one warning each, and never touches the active
or suspended lists; duplicates against suspended or pending scenes are
not detected. -/
theorem claim_C5 (g : Game η ν σ) (g' : Game η ν σ)
    (outs : List (OutEvent η ν)) (warns : List String)
    (h : activate_scenes g = .ok (g', outs, warns)) :
    g'.active_scenes = g.active_scenes ∧
    g'.suspended_scenes = g.suspended_scenes ∧
    g'.pending_scenes = g.pending_scenes.filter
      (fun s => !(scene_name_dup g s)) ∧
    warns = (g.pending_scenes.filter (scene_name_dup g)).map
      (fun s => "Scene " ++ s.name ++ " already exists. Discarding it") := by
  unfold activate_scenes at h
  cases hq : process_requests (activation_scan g).scenes_to_request g with
  | error e => simp [hq] at h
  | ok r =>
    simp only [hq] at h
    cases hw : process_needed_windows (η := η) (ν := ν) r.1.ressources
        (activation_scan g).needed_windows with
    | error e => simp [hw] at h
    | ok window_outs =>
      simp only [hw] at h
      cases h
      have hp := process_requests_preserves _ g r hq
      have hscan := activation_scan_foldl g g.pending_scenes ⟨[], [], [], []⟩
      have hdiscard : (activation_scan g).scenes_to_discard
          = (g.pending_scenes.filter (scene_name_dup g)).map Scene.name := by
        unfold activation_scan
        rw [hscan.1]
        rfl
      have hwarns : (activation_scan g).warns
          = (g.pending_scenes.filter (scene_name_dup g)).map
              (fun s => "Scene " ++ s.name ++ " already exists. Discarding it") := by
        unfold activation_scan
        rw [hscan.2]
        rfl
      refine ⟨hp.1, hp.2.2, ?_, hwarns⟩
      rw [hp.2.1]
      apply List.filter_congr
      intro s hs
      rw [hdiscard]
      by_cases hd : scene_name_dup g s
      · have hmem : s.name ∈ (g.pending_scenes.filter
            (scene_name_dup g)).map Scene.name :=
          List.mem_map_of_mem Scene.name (List.mem_filter.mpr ⟨hs, hd⟩)
        have hcont : ((g.pending_scenes.filter
            (scene_name_dup g)).map Scene.name).contains s.name = true :=
          List.elem_eq_true_of_mem hmem
        rw [hd, hcont]
      · have hnmem : s.name ∉ (g.pending_scenes.filter
            (scene_name_dup g)).map Scene.name := by
          intro hmem
          obtain ⟨t, htmem, htname⟩ := List.mem_map.mp hmem
          have htdup := (List.mem_filter.mp htmem).2
          apply hd
          unfold scene_name_dup at htdup ⊢
          rw [← htname]
          exact htdup
        have hcont : ((g.pending_scenes.filter
            (scene_name_dup g)).map Scene.name).contains s.name = false := by
          cases hcc : ((g.pending_scenes.filter
              (scene_name_dup g)).map Scene.name).contains s.name with
          | false => rfl
          | true => exact absurd (List.mem_of_elem_eq_true hcc) hnmem
        rw [hcont, Bool.eq_false_iff.mpr hd]

/-- C5 counterexample to the claim as stated: a pending scene named "S"
duplicating a suspended scene "S" is not discarded by activation and no
warning is produced — uniqueness is not enforced against the suspended
bucket. -/
theorem claim_C5_counterexample :
    activate_scenes dup_pending_game
      = .ok (dup_pending_game,
          [OutEvent.RequestNewRenderScene 0 "rsS" shader0 0 []], []) ∧
    dup_pending_game.pending_scenes.map Scene.name = ["S"] ∧
    dup_pending_game.suspended_scenes.map Scene.name = ["S"] :=
  ⟨rfl, rfl, rfl⟩

/-- C5 witness: a pending scene duplicating an active scene "S" is
discarded with the warning, and the active list is untouched. -/
theorem claim_C5_witness :
    activate_scenes dup_active_game
      = .ok ({ dup_active_game with pending_scenes := [] }, [],
          ["Scene S already exists. Discarding it"]) ∧
    ({ dup_active_game with pending_scenes := [] }
        : Game ℕ Unit Unit).pending_scenes
      = dup_active_game.pending_scenes.filter
          (fun s => !(scene_name_dup dup_active_game s)) ∧
    ["Scene S already exists. Discarding it"]
      = (dup_active_game.pending_scenes.filter
          (scene_name_dup dup_active_game)).map
          (fun s => "Scene " ++ s.name ++ " already exists. Discarding it") := by
  have h := claim_C5 dup_active_game _ _ _ rfl
  exact ⟨rfl, h.2.2.1, h.2.2.2⟩

/-- modify_first misses when no element satisfies p. -/
theorem modify_first_eq_none {α : Type} (p : α → Bool) (f : α → α) :
    ∀ l : List α, (∀ x ∈ l, p x = false) → modify_first p f l = none := by
  intro l
  induction l with
  | nil => intro _; rfl
  | cons a xs ih =>
    intro hall
    have ha := hall a (by simp)
    have hxs := ih (fun x hx => hall x (by simp [hx]))
    simp [modify_first, ha, hxs]

/-- extract_first misses when no element satisfies p. -/
theorem extract_first_eq_none {α : Type} (p : α → Bool) :
    ∀ l : List α, (∀ x ∈ l, p x = false) → extract_first p l = none := by
  intro l
  induction l with
  | nil => intro _; rfl
  | cons a xs ih =>
    intro hall
    have ha := hall a (by simp)
    have hxs := ih (fun x hx => hall x (by simp [hx]))
    simp [extract_first, ha, hxs]

/-- handle_entity_in misses when no entity has the target name. -/
theorem handle_entity_in_eq_none (ops : EntityOps η ν σ) (target : String)
    (ev : ν) :
    ∀ es : List η, (∀ e ∈ es, ops.name e ≠ target) →
      handle_entity_in ops target ev es = none := by
  intro es
  induction es with
  | nil => intro _; rfl
  | cons e xs ih =>
    intro hall
    have he := hall e (by simp)
    have hxs := ih (fun x hx => hall x (by simp [hx]))
    simp [handle_entity_in, he, hxs]

/-- deliver_entity_event misses when no active scene holds the target. -/
theorem deliver_entity_event_eq_none (ops : EntityOps η ν σ) (target : String)
    (ev : ν) :
    ∀ scs : List (Scene η),
      (∀ sc ∈ scs, ∀ e ∈ sc.entities, ops.name e ≠ target) →
      deliver_entity_event ops target ev scs = none := by
  intro scs
  induction scs with
  | nil => intro _; rfl
  | cons sc rest ih =>
    intro hall
    have hsc := handle_entity_in_eq_none ops target ev sc.entities
      (hall sc (by simp))
    have hrest := ih (fun s hs => hall s (by simp [hs]))
    simp [deliver_entity_event, hsc, hrest]

/-- C6 (amended): when the named scene is in neither lifecycle bucket,
the suspend, activate and delete-scene requests and the entity-targeted
event log a warning and drop the lookup (delete-scene still prunes the
scene's cameras; non-entity events still reach the host state handler),
whereas the add-entities, set-visibility and delete-entity requests
panic ("Found no active nor suspended scene"). -/
theorem claim_C6 (ops : EntityOps η ν σ) (g : Game η ν σ)
    (n target : String) (es : List η) (vis : Visibility) (ev : ν)
    (ha : ∀ sc ∈ g.active_scenes, sc.name ≠ n)
    (hs : ∀ sc ∈ g.suspended_scenes, sc.name ≠ n)
    (ht : ∀ sc ∈ g.active_scenes, ∀ e ∈ sc.entities, ops.name e ≠ target) :
    handle_external ops g (mk_suspend n)
      = .ok ({ g with state := (ops.state_handle_event g.state (mk_suspend n)).1 },
          (ops.state_handle_event g.state (mk_suspend n)).2.map OutEvent.External,
          ["Tried to suspend Scene " ++ n ++ ", but it is not active"]) ∧
    handle_external ops g (mk_activate n)
      = .ok ({ g with state := (ops.state_handle_event g.state (mk_activate n)).1 },
          (ops.state_handle_event g.state (mk_activate n)).2.map OutEvent.External,
          ["Tried to activate suspended Scene " ++ n ++
            ", but it is not suspended"]) ∧
    handle_external ops g (mk_delete_scene n)
      = .ok ({ g with
            cameras := (g.cameras.filter (fun c => decide (c.1 ≠ n)))
            state := (ops.state_handle_event g.state (mk_delete_scene n)).1 },
          (ops.state_handle_event g.state (mk_delete_scene n)).2.map
            OutEvent.External,
          ["Tried to delete Scene " ++ n ++
            ", but its neither active nor suspended"]) ∧
    handle_external ops g (mk_entity_event target ev)
      = .ok (g, [],
          ["Tried to send event to entity " ++ target ++
            ", but it does not exist in an active scene"]) ∧
    handle_external ops g (mk_add_entities es n)
      = .error ("Found no active nor suspended scene " ++ n) ∧
    handle_external ops g (mk_set_visibility n vis)
      = .error ("Found no active nor suspended scene " ++ n) ∧
    handle_external ops g (mk_delete_entity target n)
      = .error ("Found no active nor suspended scene " ++ n) := by
  have hpa : ∀ x ∈ g.active_scenes,
      (fun s : Scene η => decide (s.name = n)) x = false :=
    fun x hx => decide_eq_false (ha x hx)
  have hps : ∀ x ∈ g.suspended_scenes,
      (fun s : Scene η => decide (s.name = n)) x = false :=
    fun x hx => decide_eq_false (hs x hx)
  have hEa := extract_first_eq_none _ g.active_scenes hpa
  have hEs := extract_first_eq_none _ g.suspended_scenes hps
  have hFa : g.active_scenes.find? (fun s => decide (s.name = n)) = none :=
    List.find?_eq_none.mpr (fun x hx => by simp [ha x hx])
  have hFs : g.suspended_scenes.find? (fun s => decide (s.name = n)) = none :=
    List.find?_eq_none.mpr (fun x hx => by simp [hs x hx])
  have hD := deliver_entity_event_eq_none ops target ev g.active_scenes ht
  refine ⟨?_, ?_, ?_, ?_, ?_, ?_, ?_⟩
  · unfold handle_external
    simp [mk_suspend, ExtEvent.null, hEa]
  · unfold handle_external
    simp [mk_activate, ExtEvent.null, hEs]
  · unfold handle_external
    simp [mk_delete_scene, ExtEvent.null, hEa, hEs]
  · unfold handle_external
    simp [mk_entity_event, ExtEvent.null, hD]
  · unfold handle_external
    simp [mk_add_entities, ExtEvent.null,
      modify_first_eq_none _ _ g.active_scenes hpa,
      modify_first_eq_none _ _ g.suspended_scenes hps]
  · unfold handle_external
    simp [mk_set_visibility, ExtEvent.null, hFa, hFs]
  · unfold handle_external
    simp [mk_delete_entity, ExtEvent.null,
      modify_first_eq_none _ _ g.active_scenes hpa,
      modify_first_eq_none _ _ g.suspended_scenes hps]

/-- C6 witness: on a game with no scenes, suspending missing scene "S"
warns and drops while adding entities to missing scene "S" panics. -/
theorem claim_C6_witness :
    handle_external natOps empty_game (mk_suspend "S")
      = .ok (empty_game, [], ["Tried to suspend Scene S, but it is not active"]) ∧
    handle_external natOps empty_game (mk_add_entities ([] : List ℕ) "S")
      = .error "Found no active nor suspended scene S" := by
  have h := claim_C6 natOps empty_game "S" "t" [] Visibility.Visible ()
    (fun sc hsc => by simp [empty_game] at hsc)
    (fun sc hsc => by simp [empty_game] at hsc)
    (fun sc hsc => by simp [empty_game] at hsc)
  exact ⟨h.1, h.2.2.2.2.1⟩

/-- C6 counterexample to the claim as stated: a routed add-entities
event whose scene lookup fails is not logged-and-dropped — the
orchestrator panics (expect), modelled as Except.error. -/
theorem claim_C6_counterexample :
    handle_external natOps empty_game (mk_add_entities ([2] : List ℕ) "S")
      = .error "Found no active nor suspended scene S" := rfl

/-- Per-axis bound for clamp_box_inside: on an axis where the inner box
is strictly smaller, the corrected anchor is within half the size
difference of the container's anchor. -/
theorem clamp_axis {α : Type} [LinearOrderedField α] (sa oa sw ow : α)
    (hlt : ow < sw) :
    |oa + (if |sa - oa| ≤ -((ow - sw) / 2) then 0
           else if sa - oa > 0 then sa - oa + (ow - sw) / 2
           else sa - oa - (ow - sw) / 2) - sa| ≤ (sw - ow) / 2 := by
  by_cases h1 : |sa - oa| ≤ -((ow - sw) / 2)
  · rw [if_pos h1]
    have he : oa + 0 - sa = -(sa - oa) := by ring
    rw [he, abs_neg]
    have h2 : -((ow - sw) / 2) = (sw - ow) / 2 := by ring
    linarith [h1]
  · rw [if_neg h1]
    by_cases h2 : sa - oa > 0
    · rw [if_pos h2]
      have he : oa + (sa - oa + (ow - sw) / 2) - sa = (ow - sw) / 2 := by ring
      rw [he, abs_of_nonpos (by linarith : (ow - sw) / 2 ≤ 0)]
      linarith
    · rw [if_neg h2]
      have he : oa + (sa - oa - (ow - sw) / 2) - sa = -((ow - sw) / 2) := by
        ring
      rw [he, abs_of_nonneg (by linarith : (0:α) ≤ -((ow - sw) / 2))]
      linarith

/-- C4: when the inner box is strictly smaller on both axes (with
nonnegative size, per the data-model invariant), a Some result of
clamp_box_inside is an anchor at which the inner box is fully contained
in the outer box. -/
theorem claim_C4 {α : Type} [LinearOrderedField α] (A B : BoundingBox α)
    (p : Vec2 α) (hw0 : 0 ≤ B.size.width) (hh0 : 0 ≤ B.size.height)
    (hw : B.size.width < A.size.width) (hh : B.size.height < A.size.height)
    (hc : A.clamp_box_inside B = some p) :
    A.contains_box ⟨p, B.size⟩ := by
  by_cases hin : A.contains_box B
  · simp only [BoundingBox.clamp_box_inside, if_pos hin] at hc
    exact Option.noConfusion hc
  · simp only [BoundingBox.clamp_box_inside, if_neg hin] at hc
    rw [if_pos hw, if_pos hh] at hc
    injection hc with hp
    subst hp
    have hx := clamp_axis A.anchor.x B.anchor.x A.size.width B.size.width hw
    have hy := clamp_axis A.anchor.y B.anchor.y A.size.height B.size.height hh
    rw [abs_le] at hx hy
    simp only [BoundingBox.contains_box, BoundingBox.contains_point,
      Vec2.sub, Vec2.add, ge_iff_le]
    refine ⟨⟨?_, ?_, ?_, ?_⟩, ?_, ?_, ?_, ?_⟩ <;>
      linarith [hx.1, hx.2, hy.1, hy.2, hw0, hh0]

/-- C4 witness: container anchored at the origin with size 10×10, inner
box at (100, 0) with size 4×4; the clamp returns (3, 0) and the 4×4 box
anchored there is contained. -/
theorem claim_C4_witness :
    (0:ℚ) ≤ 4 ∧ (4:ℚ) < 10 ∧
    BoundingBox.clamp_box_inside
      (⟨⟨0, 0⟩, ⟨10, 10⟩⟩ : BoundingBox ℚ) ⟨⟨100, 0⟩, ⟨4, 4⟩⟩
      = some ⟨3, 0⟩ ∧
    BoundingBox.contains_box
      (⟨⟨0, 0⟩, ⟨10, 10⟩⟩ : BoundingBox ℚ) ⟨⟨3, 0⟩, ⟨4, 4⟩⟩ := by
  have hclamp : BoundingBox.clamp_box_inside
      (⟨⟨0, 0⟩, ⟨10, 10⟩⟩ : BoundingBox ℚ) ⟨⟨100, 0⟩, ⟨4, 4⟩⟩
      = some ⟨3, 0⟩ := by
    norm_num [BoundingBox.clamp_box_inside, BoundingBox.contains_box,
      BoundingBox.contains_point, Vec2.sub, Vec2.add]
  exact ⟨by norm_num, by norm_num, hclamp,
    claim_C4 _ _ _ (by norm_num) (by norm_num) (by norm_num) (by norm_num)
      hclamp⟩

/-- An adjacent two-direction combination moves at exactly |speed|. -/
theorem get_velocity_mag_adjacent (c : VelocityController)
    (h : adjacent_pair c) : c.get_velocity.magnitude = |c.speed| := by
  have h2 : Real.sqrt 2 * Real.sqrt 2 = 2 := Real.mul_self_sqrt (by norm_num)
  have h2ne : Real.sqrt 2 ≠ 0 := by
    intro h0
    rw [h0] at h2
    norm_num at h2
  have hsq : c.get_velocity.magnitude_squared = c.speed * c.speed := by
    rcases h with ⟨h1, hr, h3, h4⟩ | ⟨h1, hr, h3, h4⟩ | ⟨h1, hr, h3, h4⟩ |
      ⟨h1, hr, h3, h4⟩ <;>
    · norm_num [VelocityController.get_velocity, h1, hr, h3, h4,
        Vec2.magnitude_squared, Vec2.smul]
      rw [show (Real.sqrt 2)⁻¹ * c.speed * ((Real.sqrt 2)⁻¹ * c.speed)
            + (Real.sqrt 2)⁻¹ * c.speed * ((Real.sqrt 2)⁻¹ * c.speed)
          = c.speed * c.speed * ((Real.sqrt 2 * Real.sqrt 2)⁻¹ * 2) from by
            ring, h2]
      norm_num
  calc c.get_velocity.magnitude
      = Real.sqrt c.get_velocity.magnitude_squared := rfl
    _ = Real.sqrt (c.speed * c.speed) := by rw [hsq]
    _ = |c.speed| := Real.sqrt_mul_self_eq_abs _

/-- A single direction moves at exactly |speed|. -/
theorem get_velocity_mag_single (c : VelocityController)
    (h : exactly_one c) : c.get_velocity.magnitude = |c.speed| := by
  have hsq : c.get_velocity.magnitude_squared = c.speed * c.speed := by
    rcases h with ⟨h1, hr, h3, h4⟩ | ⟨h1, hr, h3, h4⟩ | ⟨h1, hr, h3, h4⟩ |
      ⟨h1, hr, h3, h4⟩ <;>
    · norm_num [VelocityController.get_velocity, h1, hr, h3, h4,
        Vec2.magnitude_squared, Vec2.smul, Real.sqrt_one]
  calc c.get_velocity.magnitude
      = Real.sqrt c.get_velocity.magnitude_squared := rfl
    _ = Real.sqrt (c.speed * c.speed) := by rw [hsq]
    _ = |c.speed| := Real.sqrt_mul_self_eq_abs _

/-- C8: two adjacent directions and a single direction with the same
speed s produce velocities of equal magnitude, both |s|. -/
theorem claim_C8 (c c' : VelocityController) (s : ℝ)
    (hs : c.speed = s) (hs' : c'.speed = s)
    (hadj : adjacent_pair c) (hone : exactly_one c') :
    c.get_velocity.magnitude = c'.get_velocity.magnitude ∧
    c.get_velocity.magnitude = |s| := by
  have h1 := get_velocity_mag_adjacent c hadj
  have h2 := get_velocity_mag_single c' hone
  rw [hs] at h1
  rw [hs'] at h2
  exact ⟨h1.trans h2.symm, h1⟩

/-- C8 witness: Up+Right at speed 2 has the same velocity magnitude as
Right alone at speed 2, namely 2. -/
theorem claim_C8_witness :
    (⟨2, true, true, false, false⟩ : VelocityController).speed = 2 ∧
    (⟨2, false, true, false, false⟩ : VelocityController).speed = 2 ∧
    adjacent_pair ⟨2, true, true, false, false⟩ ∧
    exactly_one ⟨2, false, true, false, false⟩ ∧
    ((⟨2, true, true, false, false⟩
        : VelocityController).get_velocity.magnitude
      = (⟨2, false, true, false, false⟩
        : VelocityController).get_velocity.magnitude ∧
     (⟨2, true, true, false, false⟩
        : VelocityController).get_velocity.magnitude = |(2:ℝ)|) :=
  ⟨rfl, rfl, Or.inl ⟨rfl, rfl, rfl, rfl⟩, Or.inr (Or.inl ⟨rfl, rfl, rfl, rfl⟩),
   claim_C8 _ _ 2 rfl rfl (Or.inl ⟨rfl, rfl, rfl, rfl⟩)
     (Or.inr (Or.inl ⟨rfl, rfl, rfl, rfl⟩))⟩

theorem magnitude_squared_nonneg (v : Vec2 ℝ) : 0 ≤ v.magnitude_squared :=
  add_nonneg (mul_self_nonneg v.x) (mul_self_nonneg v.y)

/-- Normalizing the zero vector (division by zero magnitude) yields the
zero vector; scaling it keeps magnitude 0. -/
theorem normalize_smul_mag_zero (v : Vec2 ℝ) (m : ℝ)
    (hv : v.magnitude_squared = 0) : (v.normalize.smul m).magnitude = 0 := by
  have hms : v.x * v.x + v.y * v.y = 0 := hv
  have hx : v.x = 0 := by
    nlinarith [mul_self_nonneg v.x, mul_self_nonneg v.y, hms]
  have hy : v.y = 0 := by
    nlinarith [mul_self_nonneg v.x, mul_self_nonneg v.y, hms]
  simp [Vec2.magnitude, Vec2.normalize, Vec2.smul, Vec2.magnitude_squared,
    hx, hy]

/-- Normalizing a nonzero vector and scaling by m ≥ 0 yields magnitude
exactly m. -/
theorem normalize_smul_mag_pos (v : Vec2 ℝ) (m : ℝ) (hm : 0 ≤ m)
    (hv : v.magnitude_squared ≠ 0) : (v.normalize.smul m).magnitude = m := by
  have hms0 : 0 ≤ v.magnitude_squared := magnitude_squared_nonneg v
  have hmagpos : 0 < v.magnitude :=
    Real.sqrt_pos.mpr (lt_of_le_of_ne hms0 (Ne.symm hv))
  have hmagne : v.magnitude ≠ 0 := ne_of_gt hmagpos
  have hself : v.magnitude * v.magnitude = v.magnitude_squared :=
    Real.mul_self_sqrt hms0
  show Real.sqrt ((v.x / v.magnitude * m) * (v.x / v.magnitude * m)
    + (v.y / v.magnitude * m) * (v.y / v.magnitude * m)) = m
  have hv' : v.x * v.x + v.y * v.y ≠ 0 := hv
  have key : (v.x / v.magnitude * m) * (v.x / v.magnitude * m)
      + (v.y / v.magnitude * m) * (v.y / v.magnitude * m) = m * m := by
    have hsplit : (v.x / v.magnitude * m) * (v.x / v.magnitude * m)
        + (v.y / v.magnitude * m) * (v.y / v.magnitude * m)
        = (v.x * v.x + v.y * v.y) * (m * m)
          / (v.magnitude * v.magnitude) := by
      field_simp
      ring
    rw [hsplit, hself]
    exact mul_div_cancel_left₀ _ hv'
  rw [key, Real.sqrt_mul_self hm]

/-- After the radial clamp the offset magnitude is at most max_offset
(nonnegative), and exactly max_offset when the pre-clamp magnitude
squared reached max_offset squared. -/
theorem clamped_offset_spec (c : Camera) (hmax : 0 ≤ c.max_offset) :
    c.clamped_offset.magnitude ≤ c.max_offset ∧
    (c.preclamp_offset.magnitude_squared ≥ c.max_offset ^ 2 →
      c.clamped_offset.magnitude = c.max_offset) := by
  unfold Camera.clamped_offset
  by_cases hge : c.preclamp_offset.magnitude_squared ≥ c.max_offset ^ 2
  · rw [if_pos hge]
    by_cases h0 : c.preclamp_offset.magnitude_squared = 0
    · have hsq : c.max_offset ^ 2 = 0 :=
        le_antisymm (h0 ▸ hge) (sq_nonneg _)
      have hmz : c.max_offset = 0 := by
        have := sq_eq_zero_iff.mp hsq
        exact this
      rw [normalize_smul_mag_zero _ _ h0, hmz]
      exact ⟨le_rfl, fun _ => rfl⟩
    · rw [normalize_smul_mag_pos _ _ hmax h0]
      exact ⟨le_rfl, fun _ => rfl⟩
  · rw [if_neg hge]
    push_neg at hge
    have hlt : Real.sqrt c.preclamp_offset.magnitude_squared
        < c.max_offset := by
      have h := Real.sqrt_lt_sqrt (magnitude_squared_nonneg _) hge
      rwa [Real.sqrt_sq hmax] at h
    exact ⟨le_of_lt hlt, fun h => absurd h (not_le.mpr hge)⟩

/-- C3 (amended with nonnegative max_offset): for a camera with no
bound entity, whenever update finds its target the resulting
offset_position has magnitude at most max_offset, exactly max_offset
when the pre-clamp magnitude squared reached max_offset squared; key
input never changes offset_position, so the bound holds after any
sequence of updates with key input interleaved. -/
theorem claim_C3 (c : Camera) (views : List EntityView)
    (hb : c.bound_entity = none) (hmax : 0 ≤ c.max_offset)
    (hfind : (views.find? (fun e => e.name = c.target_entity)).isSome
      = true) :
    (Camera.update c views).1.offset_position.magnitude ≤ c.max_offset ∧
    (c.preclamp_offset.magnitude_squared ≥ c.max_offset ^ 2 →
      (Camera.update c views).1.offset_position.magnitude = c.max_offset) ∧
    ∀ k : KeyEvent, (Camera.handle_key_input c k).offset_position
      = c.offset_position := by
  obtain ⟨t, ht⟩ := Option.isSome_iff_exists.mp hfind
  have hup : (Camera.update c views).1.offset_position
      = c.clamped_offset := by
    unfold Camera.update
    rw [ht, hb]
  have hs := clamped_offset_spec c hmax
  refine ⟨?_, ?_, ?_⟩
  · rw [hup]; exact hs.1
  · intro h; rw [hup]; exact hs.2 h
  · intro k
    rcases k with ⟨st, pk⟩
    cases st <;> cases pk <;> rfl

/-- C3 counterexample to the claim as stated ("for every camera"): with
a negative max_offset (-1) the clamp never fires and the stationary
offset (0,0) has magnitude 0 > max_offset, so the magnitude bound of
the claim is violated. -/
theorem claim_C3_counterexample :
    ¬ ((Camera.update (still_camera (-1))
        target_views).1.offset_position.magnitude
      ≤ (still_camera (-1)).max_offset) := by
  have hvel : (still_camera (-1)).velocity.get_velocity = ⟨0, 0⟩ := by
    norm_num [still_camera, VelocityController.new,
      VelocityController.get_velocity, Vec2.magnitude_squared, Vec2.smul]
  have hpre : (still_camera (-1)).preclamp_offset = ⟨0, 0⟩ := by
    unfold Camera.preclamp_offset
    rw [hvel]
    norm_num [still_camera, CAMERA_DECELERATION_THRESHOLD]
  have hcl : (still_camera (-1)).clamped_offset = ⟨0, 0⟩ := by
    unfold Camera.clamped_offset
    rw [hpre]
    rw [if_neg]
    norm_num [Vec2.magnitude_squared, still_camera]
  have hup : (Camera.update (still_camera (-1))
      target_views).1.offset_position = (still_camera (-1)).clamped_offset :=
    rfl
  rw [hup, hcl]
  norm_num [Vec2.magnitude, Vec2.magnitude_squared, still_camera]

/-- C3 witness: the stationary camera with max_offset 1 keeps its
offset magnitude within 1. -/
theorem claim_C3_witness :
    (still_camera 1).bound_entity = none ∧
    (0:ℝ) ≤ (still_camera 1).max_offset ∧
    (target_views.find?
      (fun e => e.name = (still_camera 1).target_entity)).isSome = true ∧
    ((Camera.update (still_camera 1)
        target_views).1.offset_position.magnitude
      ≤ (still_camera 1).max_offset ∧
     ((still_camera 1).preclamp_offset.magnitude_squared
        ≥ (still_camera 1).max_offset ^ 2 →
      (Camera.update (still_camera 1)
          target_views).1.offset_position.magnitude
        = (still_camera 1).max_offset) ∧
     ∀ k : KeyEvent,
       (Camera.handle_key_input (still_camera 1) k).offset_position
         = (still_camera 1).offset_position) :=
  ⟨rfl, by norm_num [still_camera], rfl,
   claim_C3 _ _ rfl (by norm_num [still_camera]) rfl⟩

/-- C10: the camera contributes no geometry: its render leaves the
entity and both frame buffers unchanged, it requests no sprite sheets,
and every event its update emits is a uniform-buffer update. -/
theorem claim_C10 (c : Camera) (vertices indices : List ℕ)
    (sheets : List (Option ℕ)) (views : List EntityView) :
    Camera.render c vertices indices sheets = (c, vertices, indices) ∧
    Camera.sprite_sheets c = [] ∧
    (Camera.update c views).2.all CameraEvent.is_update_uniform_buffer
      = true := by
  refine ⟨rfl, rfl, ?_⟩
  unfold Camera.update
  split
  · rfl
  · split
    · rfl
    · split
      · rfl
      · rfl

end Theorems

end FerrideCore
